import Mathlib

/-!
Shallow embedding of `deploy_topology.py`, a GNS3 topology deployment
orchestrator.  The script loads a YAML topology configuration, (re)creates a
GNS3 project, resolves template names to template ids, creates nodes, creates
links, optionally writes an Ansible inventory, starts all nodes, and runs
Day-0 configuration through external `expect` scripts.

The embedding models the remote GNS3 server functionally: project state is an
explicit value, and the responses of the node/link/template endpoints are
supplied as oracles.  Each pipeline stage returns the list of API calls it
issued together with an `Except` value; `Except.error` corresponds to the
script terminating with a non-zero status (either through `exit(1)` after a
logged error, or through an uncaught Python exception).
-/

namespace Gns3Deploy

/-- Adapter/port pair stored for one interface of a provisioned node, as
returned by the node-creation response (`instance_data["ports"]`). -/
structure PortInfo where
  adapter_number : Nat
  port_number : Nat
deriving DecidableEq

/-- A node definition from the YAML configuration (`CONFIG["nodes"][name]`):
template name, placement, optional address (`ip`) and gateway (`gw`), an
optional cloud-init request, an optional Day-0 command-file identifier and
optional Ansible group names. -/
structure NodeDef where
  template_name : String
  x : Int
  y : Int
  ip : Option String
  gw : Option String
  cloud_init : Bool
  cmdfile : Option String
  groups : Option (List String)
deriving DecidableEq

/-- A provisioned node: the configuration entry after `add_nodes` has
back-filled the remote-assigned fields `node_id`, `console` and `ports`. -/
structure ProvNode where
  conf : NodeDef
  node_id : String
  console : Nat
  ports : List (String × PortInfo)
deriving DecidableEq

/-- Lookup in a Python dict represented as an association list in insertion
order: on duplicate keys the later binding wins, as in a dict comprehension
such as `{ t["name"]: t["template_id"] for t in body }`.  Returns `none`
exactly when the Python indexing operation would raise `KeyError`. -/
def pyLookup {α : Type} (l : List (String × α)) (k : String) : Option α :=
  (l.filter (fun p => p.1 == k)).getLast?.map (fun p => p.2)

/-- Errors on which the script terminates with a non-zero exit status.
`remoteService` is an unexpected HTTP status (logged, then `exit(1)`);
`unknownTemplate` is the missing-template `KeyError` handler in
`assign_template_ids` (logged, then `exit(1)`); `unknownNode` is the
missing-node `KeyError` handler in `add_links` (logged, then `exit(1)`);
`unknownInterface` is the unguarded `node["ports"][member["interface"]]`
lookup in `add_links`, an uncaught `KeyError` that terminates the
interpreter with a non-zero status. -/
inductive DeployError where
  | remoteService (status : Nat)
  | unknownTemplate (name : String)
  | unknownNode (name : String)
  | unknownInterface (node : String) (iface : String)
deriving DecidableEq

/-- Remote API calls issued by the script, in order. -/
inductive ApiCall where
  | projectsList
  | projectDelete (id : Nat)
  | projectCreate (name : String)
  | templatesList
  | nodeCreate (name : String)
  | nodeUpdate (name : String)
  | linkCreate (a b : Nat × Nat × String)
  | nodesStart
deriving DecidableEq

/-- Process exit status abstraction: `Except.error` means a non-zero exit. -/
def exitCode {α : Type} : Except DeployError α → Nat
  | .ok _ => 0
  | .error _ => 1

/-! ### Project Resolver (`create_project`, lines 30-78)

The remote project store is modelled as an explicit state: a fresh-id counter
and the current project list.  Deletion removes a project by id (404 when the
id does not exist); creation refuses a duplicate name with 409 (GNS3 enforces
unique project names) and otherwise appends a project with a fresh id.  The
listing endpoint always answers 200 with the current list in this model; the
script's non-200 listing branch (exit 1) is therefore not reachable here. -/

structure GnsState where
  nextId : Nat
  projects : List (Nat × String)
deriving DecidableEq

/-- DELETE /v2/projects/{id}: remove the project, 204 on success. -/
def serverDelete (st : GnsState) (id : Nat) : GnsState × Nat :=
  if st.projects.any (fun p => p.1 == id) then
    ({ st with projects := st.projects.filter (fun p => p.1 ≠ id) }, 204)
  else (st, 404)

/-- POST /v2/projects: create a project with a fresh id, 201 on success,
409 when a project of the same name already exists. -/
def serverCreate (st : GnsState) (name : String) : GnsState × Nat × Nat :=
  if st.projects.any (fun p => p.2 == name) then (st, 409, 0)
  else ({ nextId := st.nextId + 1, projects := st.projects ++ [(st.nextId, name)] },
        201, st.nextId)

/-- Embeds `create_project` (lines 30-78): list projects, find the first one
whose name matches, delete it if present (non-204 aborts), then create the
project (non-201 aborts) and return the new state and project id. -/
def create_project (st : GnsState) (name : String) :
    List ApiCall × Except DeployError (GnsState × Nat) :=
  match st.projects.find? (fun p => p.2 == name) with
  | some p =>
    if (serverDelete st p.1).2 = 204 then
      if (serverCreate (serverDelete st p.1).1 name).2.1 = 201 then
        ([.projectsList, .projectDelete p.1, .projectCreate name],
         .ok ((serverCreate (serverDelete st p.1).1 name).1,
              (serverCreate (serverDelete st p.1).1 name).2.2))
      else
        ([.projectsList, .projectDelete p.1, .projectCreate name],
         .error (.remoteService (serverCreate (serverDelete st p.1).1 name).2.1))
    else ([.projectsList, .projectDelete p.1], .error (.remoteService (serverDelete st p.1).2))
  | none =>
    if (serverCreate st name).2.1 = 201 then
      ([.projectsList, .projectCreate name],
       .ok ((serverCreate st name).1, (serverCreate st name).2.2))
    else ([.projectsList, .projectCreate name],
          .error (.remoteService (serverCreate st name).2.1))

/-! ### Template Catalog (`assign_template_ids`, lines 81-111) -/

/-- An HTTP response with a decoded body. -/
structure HttpResp (α : Type) where
  status : Nat
  body : α

/-- Resolution loop of `assign_template_ids`: for each node in declaration
order look up its `template_name` in the templates dict; a miss (the
`KeyError` handler) logs the missing name and exits 1, so the first miss
aborts and no later node is processed. -/
def assignLoop (templates : List (String × String)) :
    List (String × NodeDef) → Except DeployError (List (String × NodeDef × String))
  | [] => .ok []
  | p :: rest =>
    match pyLookup templates p.2.template_name with
    | none => .error (.unknownTemplate p.2.template_name)
    | some tid =>
      match assignLoop templates rest with
      | .error e => .error e
      | .ok rs => .ok ((p.1, p.2, tid) :: rs)

/-- Embeds `assign_template_ids` (lines 81-111): GET /v2/templates (non-200
aborts), build the name-to-id dict, then resolve every node definition. -/
def assign_template_ids (resp : HttpResp (List (String × String)))
    (nodes : List (String × NodeDef)) :
    Except DeployError (List (String × NodeDef × String)) :=
  if resp.status = 200 then assignLoop resp.body nodes
  else .error (.remoteService resp.status)

/-! ### Node Provisioner (`add_nodes`, lines 155-222) -/

/-- Server response to POST .../templates/{template_id} for one node. -/
structure NodeCreateResp where
  status : Nat
  node_id : String
  console : Nat
  ports : List (String × PortInfo)

/-- Oracle for the node endpoints: the creation response for a node name and
the status of the cloud-init PUT update. -/
structure NodeServer where
  create : String → NodeCreateResp
  update : String → Nat

/-- Embeds `add_nodes` (lines 155-222): for each node in order, POST the
creation request (non-201 aborts), back-fill `console`, `node_id` and
`ports` from the response, and when the definition requests cloud-init,
build the ISO (external, no API call) and PUT the node update (non-200
aborts).  Returns the issued calls and the provisioned node list. -/
def add_nodes (srv : NodeServer) :
    List (String × NodeDef × String) →
    List ApiCall × Except DeployError (List (String × ProvNode))
  | [] => ([], .ok [])
  | (name, nd, _tid) :: rest =>
    let resp := srv.create name
    if resp.status = 201 then
      let prov : ProvNode := ⟨nd, resp.node_id, resp.console, resp.ports⟩
      if nd.cloud_init then
        if srv.update name = 200 then
          let r := add_nodes srv rest
          (.nodeCreate name :: .nodeUpdate name :: r.1,
           r.2.map (fun l => (name, prov) :: l))
        else ([.nodeCreate name, .nodeUpdate name],
              .error (.remoteService (srv.update name)))
      else
        let r := add_nodes srv rest
        (.nodeCreate name :: r.1, r.2.map (fun l => (name, prov) :: l))
    else ([.nodeCreate name], .error (.remoteService resp.status))

/-! ### Link Resolver (`add_links`, lines 225-277) -/

/-- One endpoint of a link definition: a node name and an interface key. -/
structure Member where
  name : String
  interface : String
deriving DecidableEq

/-- A resolved endpoint: node id, adapter number, port number, encoded as
`(adapter_number, port_number, node_id)` in the `ApiCall.linkCreate` payload
via `Endpoint`. -/
structure Endpoint where
  node_id : String
  adapter_number : Nat
  port_number : Nat
deriving DecidableEq

/-- Payload view of an endpoint used in the link-creation call. -/
def Endpoint.payload (e : Endpoint) : Nat × Nat × String :=
  (e.adapter_number, e.port_number, e.node_id)

/-- Resolution of one link member (lines 233-250).  The node-name lookup is
wrapped in a `try/except KeyError` that logs and exits 1 (`unknownNode`).
The interface lookup `node["ports"][member["interface"]]` is NOT guarded:
a missing interface raises an uncaught `KeyError`, which also terminates
the process with a non-zero status (`unknownInterface`). -/
def resolveMember (nodes : List (String × ProvNode)) (m : Member) :
    Except DeployError Endpoint :=
  match pyLookup nodes m.name with
  | none => .error (.unknownNode m.name)
  | some node =>
    match pyLookup node.ports m.interface with
    | none => .error (.unknownInterface m.name m.interface)
    | some p => .ok ⟨node.node_id, p.adapter_number, p.port_number⟩

/-- Resolve both members of a link, first member first, exactly as the
`for member in link` loop does; the first failure aborts. -/
def resolveLink (nodes : List (String × ProvNode)) (l : Member × Member) :
    Except DeployError (Endpoint × Endpoint) :=
  match resolveMember nodes l.1 with
  | .error e => .error e
  | .ok e1 =>
    match resolveMember nodes l.2 with
    | .error e => .error e
    | .ok e2 => .ok (e1, e2)

/-- Embeds `add_links` (lines 225-277): for each link in specification order,
resolve both endpoints (aborting on the first resolution failure, before
any POST for that link), then POST the two-endpoint link creation; a
non-201 response logs the endpoints and exits 1.  `status` is the oracle
for the link-creation responses. -/
def add_links (status : Endpoint → Endpoint → Nat)
    (nodes : List (String × ProvNode)) :
    List (Member × Member) → List ApiCall × Except DeployError Unit
  | [] => ([], .ok ())
  | l :: rest =>
    match resolveLink nodes l with
    | .error e => ([], .error e)
    | .ok es =>
      if status es.1 es.2 = 201 then
        let r := add_links status nodes rest
        (.linkCreate es.1.payload es.2.payload :: r.1, r.2)
      else ([.linkCreate es.1.payload es.2.payload],
            .error (.remoteService (status es.1 es.2)))

/-! ### Boot Sequencer (`start_nodes`, lines 280-295) -/

/-- Outcome of `start_nodes`: how many bulk start requests were issued, how
long the script slept, and the exit status when it aborted. -/
structure StartOutcome where
  requests : Nat
  slept : Nat
  exit : Option Nat
deriving DecidableEq

/-- Embeds `start_nodes` (lines 280-295): one POST .../nodes/start; on 204
sleep 10 seconds and return, on anything else log and exit 1 without
sleeping. -/
def start_nodes (status : Nat) : StartOutcome :=
  if status = 204 then ⟨1, 10, none⟩ else ⟨1, 0, some 1⟩

/-! ### Day-0 Configurator (`day0_config`, lines 298-317)

Line 303 is `gns3_server, _ = urlparse(CONFIG["gns3_server_url"]).netloc.split(':')`:
the netloc of the server URL is split on `:` and tuple-unpacked into exactly
two variables; when the split does not yield exactly two parts (for example a
URL without an explicit port) this raises an uncaught `ValueError` before the
node loop runs.  The `expect` invocations are modelled as a list of argument
records; `call(...)`'s return value is paired with each invocation through an
exit-status oracle and never inspected, exactly as the script discards it. -/

/-- Characters Python's `urlparse` accepts inside a URL scheme after the
initial letter. -/
def isSchemeChar (c : Char) : Bool :=
  c.isAlphanum || c == '+' || c == '-' || c == '.'

/-- A valid URL scheme: nonempty, starts with a letter, rest scheme chars. -/
def validScheme : List Char → Bool
  | [] => false
  | c :: cs => c.isAlpha && cs.all isSchemeChar

/-- The netloc of a URL as computed by `urllib.parse.urlparse`: strip a valid
`scheme:` prefix if present; if the remainder starts with `//`, the netloc is
what follows up to the first `/`, `?` or `#`; otherwise it is empty. -/
def netlocChars (url : String) : List Char :=
  let l := url.data
  let rest :=
    match l.findIdx? (fun c => c == ':') with
    | some i => if validScheme (l.take i) then l.drop (i + 1) else l
    | none => l
  match rest with
  | '/' :: '/' :: r => r.takeWhile (fun c => c ≠ '/' && c ≠ '?' && c ≠ '#')
  | _ => []

/-- Python's `str.split(':')`: split on every colon, never dropping empty
parts, so the result has one more element than the number of colons. -/
def splitColon : List Char → List (List Char)
  | [] => [[]]
  | c :: rest =>
    if c = ':' then [] :: splitColon rest
    else
      match splitColon rest with
      | [] => [[c]]
      | s :: ss => (c :: s) :: ss

/-- One `expect` invocation issued by `day0_config`: the script name
`day0-<cmdfile>.exp` and the positional arguments passed to it. -/
structure Day0Invocation where
  script : String
  host : String
  console : Nat
  nodeName : String
  ip : String
  gw : String
deriving DecidableEq

/-- Uncaught Python exceptions that can terminate `day0_config`:
`valueError` from the netloc tuple unpacking on line 303, `keyError` from
`config["ip"]` or `config["gw"]` when a node with a `cmdfile` lacks them. -/
inductive Day0Exn where
  | valueError
  | keyError
deriving DecidableEq

/-- The node loop of `day0_config` (lines 305-317): for every node in
declaration order carrying a `cmdfile`, build the `expect` command and invoke
it; the collaborator's exit status (`statuses`) is recorded next to the
invocation but never branched on.  Returns the invocations that happened (in
order, with their exit statuses) and the exception that aborted the loop, if
any. -/
def day0Loop (statuses : Day0Invocation → Int) (host : String) :
    List (String × ProvNode) → List (Day0Invocation × Int) × Option Day0Exn
  | [] => ([], none)
  | (name, c) :: rest =>
    match c.conf.cmdfile with
    | none => day0Loop statuses host rest
    | some f =>
      match c.conf.ip, c.conf.gw with
      | some ip, some gw =>
        let inv : Day0Invocation :=
          ⟨"day0-" ++ f ++ ".exp", host, c.console, name, ip, gw⟩
        let r := day0Loop statuses host rest
        ((inv, statuses inv) :: r.1, r.2)
      | _, _ => ([], some .keyError)

/-- Embeds `day0_config` (lines 298-317): extract the server host from the
URL netloc (raising `ValueError` unless the split yields exactly two parts,
before any invocation), then run the node loop. -/
def day0_config (url : String) (statuses : Day0Invocation → Int)
    (nodes : List (String × ProvNode)) :
    List (Day0Invocation × Int) × Option Day0Exn :=
  match splitColon (netlocChars url) with
  | [host, _] => day0Loop statuses (String.mk host) nodes
  | _ => ([], some .valueError)

/-! ### Inventory Emitter (`build_ansible_hosts`, lines 320-355)

The output is modelled as the list of strings passed to `hosts_file.write`,
in order. -/

/-- Embeds `sub("/.*$| .*$", "", ip)` (line 336): for addresses free of
newline characters the regex deletes everything from the first `/` or the
first space onward, i.e. keeps the longest prefix containing neither. -/
def stripAddr (a : String) : String :=
  String.mk (a.data.takeWhile (fun c => c ≠ '/' && c ≠ ' '))

/-- The host line written for a node with an address (line 335-337),
including the trailing newline passed to `write`. -/
def mkHostWrite (node : String) (ip : String) : String :=
  node ++ " ansible_host=" ++ stripAddr ip ++ "\n"

/-- Appending a node to one Ansible group, with Python-dict insertion-order
semantics (lines 342-346): an existing group gets the node appended, a new
group is appended at the end. -/
def addToGroup (gs : List (String × List String)) (g : String) (node : String) :
    List (String × List String) :=
  if gs.any (fun p => p.1 == g) then
    gs.map (fun p => if p.1 == g then (p.1, p.2 ++ [node]) else p)
  else gs ++ [(g, [node])]

/-- The node loop of `build_ansible_hosts` (lines 328-348): nodes without an
`ip` are skipped entirely (`continue` on line 330, before the host line and
before group gathering); nodes with an `ip` get one host line and, when they
declare groups, are appended to each of their groups. -/
def hostsLoop :
    List (String × NodeDef) → List (String × List String) →
    List String × List (String × List String)
  | [], gs => (([] : List String), gs)
  | (node, c) :: rest, gs =>
    match c.ip with
    | none => hostsLoop rest gs
    | some ip =>
      let gs1 :=
        match c.groups with
        | none => gs
        | some grps => grps.foldl (fun acc g => addToGroup acc g node) gs
      let r := hostsLoop rest gs1
      (mkHostWrite node ip :: r.1, r.2)

/-- The group sections written after the node loop (lines 351-355): for each
group, a blank line, the `[group]` header and one line per member. -/
def groupWrites (gs : List (String × List String)) : List String :=
  (gs.map (fun p => "\n" :: ("[" ++ p.1 ++ "]\n") :: p.2.map (fun h => h ++ "\n"))).flatten

/-- Embeds `build_ansible_hosts` (lines 320-355): the complete sequence of
strings written to the inventory file. -/
def build_ansible_hosts (nodes : List (String × NodeDef)) : List String :=
  let r := hostsLoop nodes []
  r.1 ++ groupWrites r.2

/-- The optional host write a node contributes: the loop writes one line per
node that has an address and none otherwise. -/
def hostWriteOf (p : String × NodeDef) : Option String :=
  p.2.ip.map (mkHostWrite p.1)

/-! ### Pool-variant instance naming

Modelled from the spec: the Pool-variant node provisioner is not part of
`src/deploy_topology.py` (only the Singleton path appears there); sections
4.3 and 8 of the design describe its name derivation: iterate the pool's
instance descriptors assigning deterministic sequential names
`<template-name-without-spaces>-<1-based-sequence-number>`, the counter
starting at 1 and incrementing per template. -/

/-- Decimal rendering of a natural number, as Python's `str` produces. -/
def natStr (n : Nat) : String :=
  if n = 0 then "0" else String.mk (((Nat.digits 10 n).map Nat.digitChar).reverse)

/-- The template name with all spaces removed. -/
def removeSpaces (s : String) : String :=
  String.mk (s.data.filter (fun c => c ≠ ' '))

/-- Modelled from the spec: the derived name of the i-th (1-based) instance
of a template pool. -/
def poolInstanceName (tmpl : String) (i : Nat) : String :=
  removeSpaces tmpl ++ "-" ++ natStr i

/-- Modelled from the spec: assign each instance descriptor of a pool its
derived name, the sequence number starting at 1. -/
def provisionPool {α : Type} (tmpl : String) (descriptors : List α) :
    List (String × α) :=
  descriptors.enum.map (fun p => (poolInstanceName tmpl (p.1 + 1), p.2))

/-! ### Main sequence (`__main__`, lines 357-456)

`runMain` composes the stages in program order: `create_project` (line 425),
`assign_template_ids` (line 429), `add_nodes` (line 433), `add_links`
(line 437), then `start_nodes` (line 452).  The inventory emitter and the
Day-0 configurator issue no remote API calls and are kept separate.  The
trace records every remote call issued before the run terminated. -/

def runMain (st : GnsState) (projectName : String)
    (tmplResp : HttpResp (List (String × String)))
    (srv : NodeServer) (linkStatus : Endpoint → Endpoint → Nat)
    (startStatus : Nat)
    (nodes : List (String × NodeDef)) (links : List (Member × Member)) :
    List ApiCall × Except DeployError Unit :=
  let pcalls := (create_project st projectName).1
  match (create_project st projectName).2 with
  | .error e => (pcalls, .error e)
  | .ok _ =>
    match assign_template_ids tmplResp nodes with
    | .error e => (pcalls ++ [.templatesList], .error e)
    | .ok resolved =>
      let n := add_nodes srv resolved
      match n.2 with
      | .error e => (pcalls ++ .templatesList :: n.1, .error e)
      | .ok prov =>
        let lk := add_links linkStatus prov links
        match lk.2 with
        | .error e => (pcalls ++ .templatesList :: n.1 ++ lk.1, .error e)
        | .ok _ =>
          if startStatus = 204 then
            (pcalls ++ .templatesList :: n.1 ++ lk.1 ++ [.nodesStart], .ok ())
          else
            (pcalls ++ .templatesList :: n.1 ++ lk.1 ++ [.nodesStart],
             .error (.remoteService startStatus))

/-- The invocation a node contributes to the Day-0 loop: one per node
carrying a cmdfile (given its address fields are present), none otherwise. -/
def day0InvOf (host : String) (p : String × ProvNode) : Option Day0Invocation :=
  match p.2.conf.cmdfile, p.2.conf.ip, p.2.conf.gw with
  | some f, some ip, some gw =>
    some ⟨"day0-" ++ f ++ ".exp", host, p.2.console, p.1, ip, gw⟩
  | _, _, _ => none

/-- Concrete provisioned topology used by the Day-0 witness: two nodes with
cmdfiles around one without. -/
def day0WitnessNodes : List (String × ProvNode) :=
  [("R1", ⟨⟨"Router", 0, 0, some "10.0.0.1/24", some "10.0.0.254", false, some "vyos", none⟩,
           "nid1", 5000, []⟩),
   ("SW", ⟨⟨"Switch", 10, 10, none, none, false, none, none⟩, "nid2", 5001, []⟩),
   ("R2", ⟨⟨"Router", 20, 0, some "10.0.0.2/24", some "10.0.0.254", false, some "vyos", none⟩,
           "nid3", 5002, []⟩)]

/-- Concrete provisioned topology used by the link witnesses: two nodes that
each expose only interface eth0. -/
def linkWitnessNodes : List (String × ProvNode) :=
  [("R1", ⟨⟨"Router", 0, 0, some "10.0.0.1/24", some "10.0.0.254", false, none, none⟩,
           "nid1", 5000, [("eth0", ⟨0, 0⟩)]⟩),
   ("R2", ⟨⟨"Router", 20, 0, some "10.0.0.2/24", some "10.0.0.254", false, none, none⟩,
           "nid2", 5001, [("eth0", ⟨0, 0⟩)]⟩)]

/-- Node-server oracle used by concrete witnesses: every creation succeeds. -/
def witnessServer : NodeServer :=
  ⟨fun _ => ⟨201, "nid", 5000, []⟩, fun _ => 200⟩

/-- Link-status oracle used by concrete witnesses: every creation succeeds. -/
def witnessLinkStatus : Endpoint → Endpoint → Nat := fun _ _ => 201

/-- Node list used by the missing-template witness: one node whose template
name does not occur in the catalog. -/
def c1Nodes : List (String × NodeDef) :=
  [("R1", ⟨"Switch", 0, 0, none, none, false, none, none⟩)]

/-! ## Helper lemmas -/

lemma digitChar_inj {a b : Nat} (ha : a < 10) (hb : b < 10)
    (h : Nat.digitChar a = Nat.digitChar b) : a = b := by
  interval_cases a <;> interval_cases b <;> revert h <;> decide

lemma map_digitChar_inj : ∀ {l1 l2 : List Nat}, (∀ x ∈ l1, x < 10) → (∀ x ∈ l2, x < 10) →
    l1.map Nat.digitChar = l2.map Nat.digitChar → l1 = l2
  | [], [], _, _, _ => rfl
  | [], _ :: _, _, _, h => by simp at h
  | _ :: _, [], _, _, h => by simp at h
  | a :: l1, b :: l2, h1, h2, h => by
    simp only [List.map_cons, List.cons.injEq] at h
    have hab := digitChar_inj (h1 a (by simp)) (h2 b (by simp)) h.1
    have htl := map_digitChar_inj (fun x hx => h1 x (by simp [hx]))
      (fun x hx => h2 x (by simp [hx])) h.2
    simp [hab, htl]

lemma digits_all_lt (n : Nat) : ∀ x ∈ Nat.digits 10 n, x < 10 :=
  fun _ hx => Nat.digits_lt_base (by norm_num) hx

lemma natStr_inj : Function.Injective natStr := by
  intro m n h
  unfold natStr at h
  by_cases hm : m = 0 <;> by_cases hn : n = 0
  · simp [hm, hn]
  · exfalso
    simp only [hm, if_pos rfl, if_neg hn] at h
    have hd : ['0'] = ((Nat.digits 10 n).map Nat.digitChar).reverse := congrArg String.data h
    have hmap : (Nat.digits 10 n).map Nat.digitChar = ['0'] := by
      have := congrArg List.reverse hd
      simpa using this.symm
    have hdig : Nat.digits 10 n = [0] :=
      map_digitChar_inj (digits_all_lt n) (by simp) (by simpa using hmap)
    have := Nat.ofDigits_digits 10 n
    rw [hdig] at this
    simp [Nat.ofDigits] at this
    exact hn this.symm
  · exfalso
    simp only [hn, if_pos rfl, if_neg hm] at h
    have hd : ((Nat.digits 10 m).map Nat.digitChar).reverse = ['0'] := congrArg String.data h
    have hmap : (Nat.digits 10 m).map Nat.digitChar = ['0'] := by
      have := congrArg List.reverse hd
      simpa using this
    have hdig : Nat.digits 10 m = [0] :=
      map_digitChar_inj (digits_all_lt m) (by simp) (by simpa using hmap)
    have := Nat.ofDigits_digits 10 m
    rw [hdig] at this
    simp [Nat.ofDigits] at this
    exact hm this.symm
  · simp only [if_neg hm, if_neg hn] at h
    have hd : ((Nat.digits 10 m).map Nat.digitChar).reverse =
        ((Nat.digits 10 n).map Nat.digitChar).reverse := congrArg String.data h
    have hrev := List.reverse_injective hd
    have hdig := map_digitChar_inj (digits_all_lt m) (digits_all_lt n) hrev
    calc m = Nat.ofDigits 10 (Nat.digits 10 m) := (Nat.ofDigits_digits 10 m).symm
      _ = Nat.ofDigits 10 (Nat.digits 10 n) := by rw [hdig]
      _ = n := Nat.ofDigits_digits 10 n

lemma poolInstanceName_inj (tmpl : String) {i j : Nat}
    (h : poolInstanceName tmpl i = poolInstanceName tmpl j) : i = j := by
  unfold poolInstanceName at h
  have hd := congrArg String.data h
  simp only [String.data_append] at hd
  exact natStr_inj (String.ext (List.append_cancel_left hd))

lemma provisionPool_names {α : Type} (tmpl : String) (ds : List α) :
    (provisionPool tmpl ds).map Prod.fst =
      (List.range ds.length).map (fun i => poolInstanceName tmpl (i + 1)) := by
  unfold provisionPool
  rw [List.map_map, List.enum_eq_zip_range]
  have heq : ((List.range ds.length).zip ds).map
        (Prod.fst ∘ fun p => (poolInstanceName tmpl (p.1 + 1), p.2)) =
      ((List.range ds.length).zip ds).map
        ((fun i => poolInstanceName tmpl (i + 1)) ∘ Prod.fst) := rfl
  rw [heq, ← List.map_map, List.map_fst_zip _ _ (by simp)]

lemma hostsLoop_fst :
    ∀ (nodes : List (String × NodeDef)) (gs : List (String × List String)),
      (hostsLoop nodes gs).1 = nodes.filterMap hostWriteOf
  | [], _ => rfl
  | (n, c) :: rest, gs => by
    cases hip : c.ip with
    | none => simp [hostsLoop, hostWriteOf, hip, hostsLoop_fst rest gs]
    | some ip =>
      cases hg : c.groups with
      | none => simp [hostsLoop, hostWriteOf, hip, hg, hostsLoop_fst rest _]
      | some grps => simp [hostsLoop, hostWriteOf, hip, hg, hostsLoop_fst rest _]

lemma hostsLoop_drop_noip (n : String) (c : NodeDef) (hip : c.ip = none) :
    ∀ (pre post : List (String × NodeDef)) (gs : List (String × List String)),
      hostsLoop (pre ++ (n, c) :: post) gs = hostsLoop (pre ++ post) gs
  | [], post, gs => by simp [hostsLoop, hip]
  | (m, d) :: pre, post, gs => by
    cases hd : d.ip with
    | none => simpa [hostsLoop, hd] using hostsLoop_drop_noip n c hip pre post gs
    | some ip => simp [hostsLoop, hd, hostsLoop_drop_noip n c hip pre post _]

/-! ## Claim theorems -/

/-- C3: for every Pool-variant node definition with k instance descriptors,
provisioning derives k instance names that are pairwise unique and equal to
the template name with spaces removed, followed by a dash and the 1-based
instance index. -/
theorem poolNamesUniquePattern {α : Type} (tmpl : String) (ds : List α) :
    (provisionPool tmpl ds).length = ds.length ∧
    (provisionPool tmpl ds).map Prod.fst =
      (List.range ds.length).map (fun i => removeSpaces tmpl ++ "-" ++ natStr (i + 1)) ∧
    ((provisionPool tmpl ds).map Prod.fst).Nodup := by
  refine ⟨by simp [provisionPool], ?_, ?_⟩
  · simpa [poolInstanceName] using provisionPool_names tmpl ds
  · rw [provisionPool_names tmpl ds]
    exact (List.nodup_range ds.length).map
      (fun a b hab => Nat.succ_injective (poolInstanceName_inj tmpl hab))

/-- C7: the boot sequencer issues exactly one bulk start request; exactly on
status 204 it sleeps the fixed 10-second settle delay and returns normally;
on any other status it exits 1 without sleeping. -/
theorem startNodesSingleRequest (status : Nat) :
    (start_nodes status).requests = 1 ∧
    (((start_nodes status).exit = none ∧ (start_nodes status).slept = 10) ↔ status = 204) ∧
    (status ≠ 204 → (start_nodes status).exit = some 1 ∧ (start_nodes status).slept = 0) := by
  by_cases h : status = 204 <;> simp [start_nodes, h]

/-- C7 witness: concrete outcomes at status 204 and status 500. -/
theorem startNodesSingleRequest_witness :
    (start_nodes 204).slept = 10 ∧ (start_nodes 500).exit = some 1 :=
  ⟨((startNodesSingleRequest 204).2.1.mpr rfl).2,
   ((startNodesSingleRequest 500).2.2 (by decide)).1⟩

/-- C8: every node definition with an address yields exactly one host line
of the form `<name> ansible_host=<address truncated at the first slash or
space>`; in particular address `10.0.0.1/24` for node `R1` yields
`R1 ansible_host=10.0.0.1`. -/
theorem inventoryHostLine (pre post : List (String × NodeDef))
    (n : String) (c : NodeDef) (a : String) (hip : c.ip = some a) :
    (∃ gws, build_ansible_hosts (pre ++ (n, c) :: post) =
      pre.filterMap hostWriteOf ++
        mkHostWrite n a :: post.filterMap hostWriteOf ++ gws) ∧
    mkHostWrite "R1" "10.0.0.1/24" = "R1 ansible_host=10.0.0.1\n" := by
  constructor
  · refine ⟨groupWrites (hostsLoop (pre ++ (n, c) :: post) []).2, ?_⟩
    show (hostsLoop (pre ++ (n, c) :: post) []).1 ++ _ = _
    rw [hostsLoop_fst]
    simp [List.filterMap_append, hostWriteOf, hip]
  · rfl

/-- C8 witness: a one-node topology produces exactly the expected line. -/
theorem inventoryHostLine_witness :
    build_ansible_hosts
        [("R1", ⟨"Router", 0, 0, some "10.0.0.1/24", some "10.0.0.254", false, none, none⟩)] =
      ["R1 ansible_host=10.0.0.1\n"] ∧
    mkHostWrite "R1" "10.0.0.1/24" = "R1 ansible_host=10.0.0.1\n" :=
  ⟨rfl,
   (inventoryHostLine [] [] "R1"
      ⟨"Router", 0, 0, some "10.0.0.1/24", some "10.0.0.254", false, none, none⟩
      "10.0.0.1/24" rfl).2⟩

/-- C10: a node definition without an address is omitted from the inventory
entirely: the output is identical to the output for the topology without
that node, so it gets no host line and appears in no group section even when
it declares group names. -/
theorem inventoryOmitsAddressless (pre post : List (String × NodeDef))
    (n : String) (c : NodeDef) (hip : c.ip = none) :
    build_ansible_hosts (pre ++ (n, c) :: post) = build_ansible_hosts (pre ++ post) := by
  unfold build_ansible_hosts
  rw [hostsLoop_drop_noip n c hip pre post]

/-- C10 witness: an addressless node declaring groups leaves no trace in the
inventory output. -/
theorem inventoryOmitsAddressless_witness :
    build_ansible_hosts
        [("R1", ⟨"Router", 0, 0, some "10.0.0.1/24", some "10.0.0.254", false, none, some ["routers"]⟩),
         ("SW", ⟨"Switch", 0, 0, none, none, false, none, some ["switches", "routers"]⟩),
         ("R2", ⟨"Router", 0, 0, some "10.0.0.2/24", some "10.0.0.254", false, none, some ["routers"]⟩)] =
      build_ansible_hosts
        [("R1", ⟨"Router", 0, 0, some "10.0.0.1/24", some "10.0.0.254", false, none, some ["routers"]⟩),
         ("R2", ⟨"Router", 0, 0, some "10.0.0.2/24", some "10.0.0.254", false, none, some ["routers"]⟩)] :=
  inventoryOmitsAddressless
    [("R1", ⟨"Router", 0, 0, some "10.0.0.1/24", some "10.0.0.254", false, none, some ["routers"]⟩)]
    [("R2", ⟨"Router", 0, 0, some "10.0.0.2/24", some "10.0.0.254", false, none, some ["routers"]⟩)]
    "SW" ⟨"Switch", 0, 0, none, none, false, none, some ["switches", "routers"]⟩ rfl

/-- C9: when the netloc of the configured server URL does not contain exactly
one colon (for example a URL with no explicit port), the Day-0 configurator
raises an uncaught ValueError at the tuple unpacking, before invoking any
console-automation script, even for nodes that carry a cmdfile. -/
theorem day0MalformedUrlRaises (url : String) (statuses : Day0Invocation → Int)
    (nodes : List (String × ProvNode))
    (h : (splitColon (netlocChars url)).length ≠ 2) :
    day0_config url statuses nodes = ([], some Day0Exn.valueError) := by
  unfold day0_config
  rcases hs : splitColon (netlocChars url) with _ | ⟨a, _ | ⟨b, _ | _⟩⟩ <;>
    first
      | rfl
      | (exfalso; rw [hs] at h; simp at h)

/-- C9 witness: a server URL without an explicit port, with a node that does
carry a configuration-procedure identifier: no invocation happens. -/
theorem day0MalformedUrlRaises_witness :
    day0_config "http://10.0.0.10/" (fun _ => 0)
        [("R1", ⟨⟨"Router", 0, 0, some "10.0.0.1/24", some "10.0.0.254", false, some "vyos", none⟩,
                 "nid", 5000, []⟩)] =
      ([], some Day0Exn.valueError) :=
  day0MalformedUrlRaises "http://10.0.0.10/" (fun _ => 0) _ (by decide)

lemma day0Loop_spec (statuses : Day0Invocation → Int) (host : String) :
    ∀ nodes : List (String × ProvNode),
      (∀ p ∈ nodes, p.2.conf.cmdfile ≠ none → (p.2.conf.ip ≠ none ∧ p.2.conf.gw ≠ none)) →
      (day0Loop statuses host nodes).1.map Prod.fst = nodes.filterMap (day0InvOf host) ∧
      (day0Loop statuses host nodes).2 = none
  | [], _ => by simp [day0Loop]
  | (name, c) :: rest, hwf => by
    have ih := day0Loop_spec statuses host rest
      (fun p hp => hwf p (List.mem_cons_of_mem _ hp))
    cases hf : c.conf.cmdfile with
    | none => simpa [day0Loop, day0InvOf, hf] using ih
    | some f =>
      have h2 := hwf (name, c) (List.mem_cons_self _ _) (by simp [hf])
      cases hip : c.conf.ip with
      | none => exact absurd hip h2.1
      | some ip =>
        cases hgw : c.conf.gw with
        | none => exact absurd hgw h2.2
        | some gw => simp [day0Loop, day0InvOf, hf, hip, hgw, ih.1, ih.2]

/-- C6: with a well-formed server URL, the Day-0 configurator performs
exactly one console-automation invocation per node carrying a cmdfile, in
node declaration order, completes without raising, and its behaviour is
identical for every assignment of collaborator exit statuses: a non-zero
exit status never aborts the run or suppresses later invocations. -/
theorem day0InvokesAllNodes (url : String) (host port : List Char)
    (s1 s2 : Day0Invocation → Int) (nodes : List (String × ProvNode))
    (hurl : splitColon (netlocChars url) = [host, port])
    (hwf : ∀ p ∈ nodes, p.2.conf.cmdfile ≠ none → (p.2.conf.ip ≠ none ∧ p.2.conf.gw ≠ none)) :
    (day0_config url s1 nodes).2 = none ∧
    (day0_config url s1 nodes).1.map Prod.fst = nodes.filterMap (day0InvOf (String.mk host)) ∧
    (day0_config url s2 nodes).1.map Prod.fst = (day0_config url s1 nodes).1.map Prod.fst ∧
    (day0_config url s2 nodes).2 = (day0_config url s1 nodes).2 := by
  have e1 : day0_config url s1 nodes = day0Loop s1 (String.mk host) nodes := by
    unfold day0_config
    rw [hurl]
  have e2 : day0_config url s2 nodes = day0Loop s2 (String.mk host) nodes := by
    unfold day0_config
    rw [hurl]
  have sp1 := day0Loop_spec s1 (String.mk host) nodes hwf
  have sp2 := day0Loop_spec s2 (String.mk host) nodes hwf
  rw [e1, e2]
  exact ⟨sp1.2, sp1.1, by rw [sp1.1, sp2.1], by rw [sp1.2, sp2.2]⟩

/-- C6 witness: two nodes with cmdfiles and one without, under two different
exit-status oracles, produce the same two invocations in order and no
abort. -/
theorem day0InvokesAllNodes_witness :
    (day0_config "http://10.0.0.10:3080/" (fun _ => 0) day0WitnessNodes).2 = none ∧
    (day0_config "http://10.0.0.10:3080/" (fun _ => 0) day0WitnessNodes).1.map Prod.fst =
      day0WitnessNodes.filterMap (day0InvOf "10.0.0.10") ∧
    (day0_config "http://10.0.0.10:3080/" (fun _ => 1) day0WitnessNodes).1.map Prod.fst =
      (day0_config "http://10.0.0.10:3080/" (fun _ => 0) day0WitnessNodes).1.map Prod.fst ∧
    (day0_config "http://10.0.0.10:3080/" (fun _ => 1) day0WitnessNodes).2 =
      (day0_config "http://10.0.0.10:3080/" (fun _ => 0) day0WitnessNodes).2 :=
  day0InvokesAllNodes "http://10.0.0.10:3080/"
    ['1', '0', '.', '0', '.', '0', '.', '1', '0'] ['3', '0', '8', '0']
    (fun _ => 0) (fun _ => 1) day0WitnessNodes rfl (by decide)

/-! ## Link Resolver claims -/

lemma resolveMember_unknownInterface {nodes : List (String × ProvNode)} {m : Member}
    {nm iface : String}
    (h : resolveMember nodes m = .error (.unknownInterface nm iface)) :
    nm = m.name ∧ iface = m.interface ∧
      ∃ node, pyLookup nodes m.name = some node ∧ pyLookup node.ports m.interface = none := by
  unfold resolveMember at h
  split at h
  · simp at h
  · rename_i node h1
    split at h
    · rename_i h2
      simp only [Except.error.injEq, DeployError.unknownInterface.injEq] at h
      exact ⟨h.1.symm, h.2.symm, node, h1, h2⟩
    · simp at h

lemma resolveMember_unknownNode {nodes : List (String × ProvNode)} {m : Member}
    {nm : String} (h : resolveMember nodes m = .error (.unknownNode nm)) :
    nm = m.name ∧ pyLookup nodes m.name = none := by
  unfold resolveMember at h
  split at h
  · rename_i h1
    simp only [Except.error.injEq, DeployError.unknownNode.injEq] at h
    exact ⟨h.symm, h1⟩
  · rename_i node h1
    split at h
    · simp at h
    · simp at h

lemma resolveLink_error {nodes : List (String × ProvNode)} {l : Member × Member}
    {e : DeployError} (h : resolveLink nodes l = .error e) :
    resolveMember nodes l.1 = .error e ∨
    (∃ e1, resolveMember nodes l.1 = .ok e1 ∧ resolveMember nodes l.2 = .error e) := by
  unfold resolveLink at h
  split at h
  · rename_i e1 h1
    simp only [Except.error.injEq] at h
    subst h
    exact Or.inl h1
  · rename_i e1 h1
    split at h
    · rename_i e2 h2
      simp only [Except.error.injEq] at h
      subst h
      exact Or.inr ⟨e1, h1, h2⟩
    · simp at h

lemma add_links_append_ok (status : Endpoint → Endpoint → Nat)
    (nodes : List (String × ProvNode)) :
    ∀ (pre rest : List (Member × Member)),
      (∀ l ∈ pre, ∃ es : Endpoint × Endpoint,
        resolveLink nodes l = .ok es ∧ status es.1 es.2 = 201) →
      add_links status nodes (pre ++ rest) =
        ((add_links status nodes pre).1 ++ (add_links status nodes rest).1,
         (add_links status nodes rest).2)
  | [], rest, _ => by simp [add_links]
  | l :: pre, rest, hpre => by
    obtain ⟨es, hres, hst⟩ := hpre l (by simp)
    have ih := add_links_append_ok status nodes pre rest
      (fun x hx => hpre x (List.mem_cons_of_mem _ hx))
    simp [add_links, hres, hst, ih]

/-- C2: when a link is reached whose endpoint references an interface absent
from the referenced node's port mapping, the run aborts with the
unknown-interface error (an uncaught KeyError in the source) and no
link-creation call is issued for that link: the calls issued are exactly
those of the preceding links. -/
theorem unknownInterfaceAbortsLink (status : Endpoint → Endpoint → Nat)
    (nodes : List (String × ProvNode)) (pre post : List (Member × Member))
    (l : Member × Member) (nm iface : String)
    (hpre : ∀ x ∈ pre, ∃ es : Endpoint × Endpoint,
      resolveLink nodes x = .ok es ∧ status es.1 es.2 = 201)
    (hl : resolveLink nodes l = .error (.unknownInterface nm iface)) :
    (∃ m : Member, (m = l.1 ∨ m = l.2) ∧ m.name = nm ∧ m.interface = iface ∧
      ∃ node, pyLookup nodes nm = some node ∧ pyLookup node.ports iface = none) ∧
    (add_links status nodes (pre ++ l :: post)).2 =
      .error (.unknownInterface nm iface) ∧
    (add_links status nodes (pre ++ l :: post)).1 = (add_links status nodes pre).1 ∧
    exitCode (add_links status nodes (pre ++ l :: post)).2 = 1 := by
  have happ := add_links_append_ok status nodes pre (l :: post) hpre
  have htail : add_links status nodes (l :: post) = ([], .error (.unknownInterface nm iface)) := by
    simp [add_links, hl]
  refine ⟨?_, ?_, ?_, ?_⟩
  · rcases resolveLink_error hl with h1 | ⟨e1, _, h2⟩
    · obtain ⟨hnm, hif, node, hn, hp⟩ := resolveMember_unknownInterface h1
      refine ⟨l.1, Or.inl rfl, hnm.symm, hif.symm, node, ?_, ?_⟩
      · rw [hnm]; exact hn
      · rw [hif]; exact hp
    · obtain ⟨hnm, hif, node, hn, hp⟩ := resolveMember_unknownInterface h2
      refine ⟨l.2, Or.inr rfl, hnm.symm, hif.symm, node, ?_, ?_⟩
      · rw [hnm]; exact hn
      · rw [hif]; exact hp
  · rw [happ, htail]
  · rw [happ, htail]
    simp
  · rw [happ, htail]
    rfl

/-- C2 witness: a single link whose second endpoint names an interface the
node does not have: the unknown-interface abort, and zero link-creation
calls. -/
theorem unknownInterfaceAbortsLink_witness :
    (add_links (fun _ _ => 201) linkWitnessNodes
        [(⟨"R1", "eth0"⟩, ⟨"R2", "eth9"⟩)]).2 =
      .error (.unknownInterface "R2" "eth9") ∧
    (add_links (fun _ _ => 201) linkWitnessNodes
        [(⟨"R1", "eth0"⟩, ⟨"R2", "eth9"⟩)]).1 = [] := by
  have h := unknownInterfaceAbortsLink (fun _ _ => 201) linkWitnessNodes [] []
    (⟨"R1", "eth0"⟩, ⟨"R2", "eth9"⟩) "R2" "eth9" (by simp) rfl
  exact ⟨h.2.1, h.2.2.1⟩

/-- C5: when a link is reached whose endpoint references a node name absent
from the provisioned node set, resolution fails with the unknown-node error,
the run exits non-zero, and no link-creation call is issued for that link. -/
theorem unknownNodeAbortsLink (status : Endpoint → Endpoint → Nat)
    (nodes : List (String × ProvNode)) (pre post : List (Member × Member))
    (l : Member × Member) (nm : String)
    (hpre : ∀ x ∈ pre, ∃ es : Endpoint × Endpoint,
      resolveLink nodes x = .ok es ∧ status es.1 es.2 = 201)
    (hl : resolveLink nodes l = .error (.unknownNode nm)) :
    (∃ m : Member, (m = l.1 ∨ m = l.2) ∧ m.name = nm ∧ pyLookup nodes nm = none) ∧
    (add_links status nodes (pre ++ l :: post)).2 = .error (.unknownNode nm) ∧
    (add_links status nodes (pre ++ l :: post)).1 = (add_links status nodes pre).1 ∧
    exitCode (add_links status nodes (pre ++ l :: post)).2 = 1 := by
  have happ := add_links_append_ok status nodes pre (l :: post) hpre
  have htail : add_links status nodes (l :: post) = ([], .error (.unknownNode nm)) := by
    simp [add_links, hl]
  refine ⟨?_, ?_, ?_, ?_⟩
  · rcases resolveLink_error hl with h1 | ⟨e1, _, h2⟩
    · obtain ⟨hnm, hn⟩ := resolveMember_unknownNode h1
      refine ⟨l.1, Or.inl rfl, hnm.symm, ?_⟩
      rw [hnm]; exact hn
    · obtain ⟨hnm, hn⟩ := resolveMember_unknownNode h2
      refine ⟨l.2, Or.inr rfl, hnm.symm, ?_⟩
      rw [hnm]; exact hn
  · rw [happ, htail]
  · rw [happ, htail]
    simp
  · rw [happ, htail]
    rfl

/-- C5 witness: a link naming a nonexistent node R9: the unknown-node abort,
and zero link-creation calls. -/
theorem unknownNodeAbortsLink_witness :
    (add_links (fun _ _ => 201) linkWitnessNodes
        [(⟨"R9", "eth0"⟩, ⟨"R1", "eth0"⟩)]).2 =
      .error (.unknownNode "R9") ∧
    (add_links (fun _ _ => 201) linkWitnessNodes
        [(⟨"R9", "eth0"⟩, ⟨"R1", "eth0"⟩)]).1 = [] := by
  have h := unknownNodeAbortsLink (fun _ _ => 201) linkWitnessNodes [] []
    (⟨"R9", "eth0"⟩, ⟨"R1", "eth0"⟩) "R9" (by simp) rfl
  exact ⟨h.2.1, h.2.2.1⟩

/-! ## Project Resolver claim -/

lemma serverDelete_mem (st : GnsState) (p0 : Nat × String) (hmem : p0 ∈ st.projects) :
    serverDelete st p0.1 =
      (⟨st.nextId, st.projects.filter (fun p => p.1 ≠ p0.1)⟩, 204) := by
  unfold serverDelete
  rw [if_pos (List.any_eq_true.mpr ⟨p0, hmem, by simp⟩)]

/-- C4: for every run that completes the project-resolution step, a project
that carried the configured name beforehand is gone afterwards, exactly one
project with that name exists afterwards, and it carries a fresh (different)
identifier. -/
theorem projectRecreatedFresh (st : GnsState) (name : String) (oldId : Nat)
    (st2 : GnsState) (pid : Nat)
    (hwf : ∀ p ∈ st.projects, p.1 < st.nextId)
    (hex : (oldId, name) ∈ st.projects)
    (hok : (create_project st name).2 = .ok (st2, pid)) :
    (oldId, name) ∉ st2.projects ∧ (pid, name) ∈ st2.projects ∧ pid ≠ oldId ∧
    ∀ q ∈ st2.projects, q.2 = name → q = (pid, name) := by
  unfold create_project at hok
  split at hok
  case h_2 hf =>
    exfalso
    have := List.find?_eq_none.mp hf (oldId, name) hex
    simp at this
  case h_1 p0 hf =>
    have hp0mem : p0 ∈ st.projects := List.mem_of_find?_eq_some hf
    have hD := serverDelete_mem st p0 hp0mem
    rw [hD] at hok
    dsimp only at hok
    rw [if_pos rfl] at hok
    cases hany : (st.projects.filter (fun p => p.1 ≠ p0.1)).any (fun p => p.2 == name) with
    | true =>
      exfalso
      have hC : serverCreate ⟨st.nextId, st.projects.filter (fun p => p.1 ≠ p0.1)⟩ name =
          (⟨st.nextId, st.projects.filter (fun p => p.1 ≠ p0.1)⟩, 409, 0) := by
        unfold serverCreate
        rw [if_pos hany]
      rw [hC] at hok
      simp at hok
    | false =>
      have hC : serverCreate ⟨st.nextId, st.projects.filter (fun p => p.1 ≠ p0.1)⟩ name =
          (⟨st.nextId + 1,
            st.projects.filter (fun p => p.1 ≠ p0.1) ++ [(st.nextId, name)]⟩,
           201, st.nextId) := by
        unfold serverCreate
        rw [if_neg (by rw [hany]; exact Bool.false_ne_true)]
      rw [hC] at hok
      dsimp only at hok
      rw [if_pos rfl] at hok
      dsimp only at hok
      injection hok with hok1
      injection hok1 with hst2 hpid
      subst hst2
      subst hpid
      have hnon : ∀ q ∈ st.projects.filter (fun p => p.1 ≠ p0.1), q.2 ≠ name := by
        intro q hq
        have := List.any_eq_false.mp hany q hq
        simpa using this
      have holdid : oldId = p0.1 := by
        by_contra hne
        have hmemf : (oldId, name) ∈ st.projects.filter (fun p => p.1 ≠ p0.1) :=
          List.mem_filter.mpr ⟨hex, by simpa using hne⟩
        exact hnon _ hmemf rfl
      refine ⟨?_, ?_, ?_, ?_⟩
      · intro hmem
        rcases List.mem_append.mp hmem with h | h
        · exact hnon _ h rfl
        · have : oldId = st.nextId := by simpa using h
          have := hwf p0 hp0mem
          omega
      · exact List.mem_append_right _ (by simp)
      · have := hwf p0 hp0mem
        omega
      · intro q hq hqn
        rcases List.mem_append.mp hq with h | h
        · exact absurd hqn (hnon _ h)
        · simpa using h

/-- C4 witness: a server holding project (2, lab) alongside an unrelated
project; after resolution the old project is gone and (4, lab) is the single
project named lab. -/
theorem projectRecreatedFresh_witness :
    ((2 : Nat), "lab") ∉ (⟨5, [(0, "other"), (4, "lab")]⟩ : GnsState).projects ∧
    ((4 : Nat), "lab") ∈ (⟨5, [(0, "other"), (4, "lab")]⟩ : GnsState).projects ∧
    (4 : Nat) ≠ 2 := by
  have h := projectRecreatedFresh ⟨4, [(0, "other"), (2, "lab")]⟩ "lab" 2
    ⟨5, [(0, "other"), (4, "lab")]⟩ 4 (by decide) (by decide) rfl
  exact ⟨h.1, h.2.1, h.2.2.1⟩

/-! ## Template Catalog claim -/

lemma create_project_no_nodeCreate (st : GnsState) (name nm : String) :
    ApiCall.nodeCreate nm ∉ (create_project st name).1 := by
  unfold create_project
  split <;> split_ifs <;> simp

lemma assignLoop_missing (tmps : List (String × String)) :
    ∀ nodes : List (String × NodeDef),
      (∃ p ∈ nodes, pyLookup tmps p.2.template_name = none) →
      ∃ t, assignLoop tmps nodes = .error (.unknownTemplate t) ∧
        pyLookup tmps t = none ∧ ∃ q ∈ nodes, q.2.template_name = t
  | [], h => by simp at h
  | p :: rest, h => by
    cases hl : pyLookup tmps p.2.template_name with
    | none =>
      exact ⟨p.2.template_name, by simp [assignLoop, hl], hl, p, by simp, rfl⟩
    | some tid =>
      have hrest : ∃ q ∈ rest, pyLookup tmps q.2.template_name = none := by
        obtain ⟨q, hq, hqn⟩ := h
        rcases List.mem_cons.mp hq with rfl | hq2
        · rw [hl] at hqn
          exact absurd hqn (by simp)
        · exact ⟨q, hq2, hqn⟩
      obtain ⟨t, ht, htn, q, hq, hqt⟩ := assignLoop_missing tmps rest hrest
      refine ⟨t, ?_, htn, q, List.mem_cons_of_mem _ hq, hqt⟩
      simp [assignLoop, hl, ht]

/-- C1: when some node definition's template name is absent from the
template catalog returned by the server, the run aborts (exit 1) with the
unknown-template error naming a missing template, and no node-creation call
appears anywhere in the trace: the abort happens before any node is
created. -/
theorem missingTemplateAbortsRun (st : GnsState) (projectName : String)
    (tmplResp : HttpResp (List (String × String))) (srv : NodeServer)
    (linkStatus : Endpoint → Endpoint → Nat) (startStatus : Nat)
    (nodes : List (String × NodeDef)) (links : List (Member × Member))
    (st2 : GnsState) (pid : Nat)
    (hstatus : tmplResp.status = 200)
    (hproj : (create_project st projectName).2 = .ok (st2, pid))
    (hmiss : ∃ p ∈ nodes, pyLookup tmplResp.body p.2.template_name = none) :
    (∀ nm, ApiCall.nodeCreate nm ∉
      (runMain st projectName tmplResp srv linkStatus startStatus nodes links).1) ∧
    exitCode (runMain st projectName tmplResp srv linkStatus startStatus nodes links).2 = 1 ∧
    ∃ t, (runMain st projectName tmplResp srv linkStatus startStatus nodes links).2 =
          .error (.unknownTemplate t) ∧
        pyLookup tmplResp.body t = none ∧ ∃ q ∈ nodes, q.2.template_name = t := by
  obtain ⟨t, ht, htn, hq⟩ := assignLoop_missing tmplResp.body nodes hmiss
  have hassign : assign_template_ids tmplResp nodes = .error (.unknownTemplate t) := by
    unfold assign_template_ids
    rw [if_pos hstatus, ht]
  have hrun : runMain st projectName tmplResp srv linkStatus startStatus nodes links =
      ((create_project st projectName).1 ++ [.templatesList],
       .error (.unknownTemplate t)) := by
    unfold runMain
    rw [hproj, hassign]
  rw [hrun]
  refine ⟨?_, rfl, t, rfl, htn, hq⟩
  intro nm hmem
  rcases List.mem_append.mp hmem with h | h
  · exact create_project_no_nodeCreate st projectName nm h
  · simp at h

/-- C1 witness: a catalog holding only Router while the sole node requests
Switch: the run errors out and its trace holds no node-creation call. -/
theorem missingTemplateAbortsRun_witness :
    ApiCall.nodeCreate "R1" ∉
      (runMain ⟨1, []⟩ "p" ⟨200, [("Router", "t1")]⟩ witnessServer witnessLinkStatus 204
        c1Nodes []).1 ∧
    exitCode (runMain ⟨1, []⟩ "p" ⟨200, [("Router", "t1")]⟩ witnessServer witnessLinkStatus 204
        c1Nodes []).2 = 1 := by
  have h := missingTemplateAbortsRun ⟨1, []⟩ "p" ⟨200, [("Router", "t1")]⟩ witnessServer
    witnessLinkStatus 204 c1Nodes [] ⟨2, [(1, "p")]⟩ 1 rfl rfl
    ⟨("R1", ⟨"Switch", 0, 0, none, none, false, none, none⟩), by simp [c1Nodes], rfl⟩
  exact ⟨h.1 "R1", h.2.1⟩

end Gns3Deploy
